import Mathlib

/-!
Shallow embedding of the `rocket_auth_nosql` crate: the data model
(`User`, `Session`, `AuthKey`, the error enum), the password policy
(`src/forms/mod.rs`), the session stores (`src/session/default/mod.rs`,
`src/session/redis/mod.rs`), the MongoDB-backed user repository
(`src/db/mongomodel/mod.rs`), and the `Users` / `Auth` operations
(`src/user/mod.rs`, `src/user/users.rs`, `src/user/auth.rs`,
`src/user/user.rs`).

Conventions of the embedding:
* MongoDB `ObjectId` is modelled as `Nat`.
* Rust `Result<T, Error>` is `Except Error T`; `Option<T>` is `Option T`.
* Interior mutability (the session store behind `&self`, the database
  connection) is modelled by explicit state passing: an operation that
  mutates the store takes it as an argument and returns the new store.
* Randomness (`rand_string`) and the current time (`now()`) are passed
  in as explicit parameters.
* External crates (argon2, validator) are modelled by small concrete
  stand-ins that preserve the control flow the repository code depends
  on; each such model is marked in its doc comment.
-/

deriving instance DecidableEq for Except

namespace RocketAuthNosql

/-- MongoDB ObjectId, modelled as a natural number. -/
abbrev ObjectId := Nat

/-- Embeds `validator::ValidationError` (external crate): carries the code string
passed to `ValidationError::new`. -/
structure ValidationError where
  code : String
deriving Repr, DecidableEq

/-- The crate's error enum from `src/error.rs` (the variants the embedded
operations can produce; wrapped external errors are collapsed to their
variant). -/
inductive Error where
  | InvalidEmailAddressError
  | UserNotFoundError
  | UnmanagedStateError
  | UnauthenticatedError
  | EmailDoesNotExist (email : String)
  | EmailAlreadyExists
  | UnauthorizedError
  | VerificationTokenMismatch
  | UnverifiedError
  | SmtpRequestError
  | FormValidationError (e : ValidationError)
  | FormValidationErrors (codes : List String)
  | Argon2ParsingError
  | MongoDBError
deriving Repr, DecidableEq

/-- The `User` record from `src/lib.rs` (fields in source order). -/
structure User where
  id : Option ObjectId
  email : String
  is_admin : Bool
  is_verified : Bool
  verification_token : String
  password : String
  prev_password : Option String
  prev_password_1 : Option String
  prev_password_2 : Option String
deriving Repr, DecidableEq

/-- The client-held session payload.  `src/cookies.rs` is not under `src/`;
modelled from the spec (§6): a structure `{id, email, auth_key, issued_at}`,
with the field names used by `src/user/auth.rs` when it builds the value. -/
structure Session where
  id : ObjectId
  email : String
  auth_key : String
  time_stamp : Int
deriving Repr, DecidableEq

/-- The server-side session-store value used by
`src/session/default/mod.rs`: a secret and an expiry field in seconds. -/
structure AuthKey where
  expires : Int
  secret : String
deriving Repr, DecidableEq

/-! ## Password policy — `src/forms/mod.rs` -/

/-- Embeds `is_long`: fails when `password.len() < 8` (Rust `str::len` is the
UTF-8 byte length). -/
def is_long (password : String) : Except ValidationError Unit :=
  if password.utf8ByteSize < 8 then
    .error ⟨"The password must be at least 8 characters long.\n"⟩
  else
    .ok ()

/-- Embeds `has_uppercase`: the Rust loop returns `Ok` on the first uppercase
character, i.e. it succeeds iff some character is uppercase.  Rust's
Unicode `char::is_uppercase` is modelled by `Char.isUpper`. -/
def has_uppercase (password : String) : Except ValidationError Unit :=
  if password.data.any (fun c => c.isUpper) then
    .ok ()
  else
    .error ⟨"The password must include at least one uppercase character.\n"⟩

/-- Embeds `has_lowercase`: succeeds iff some character is lowercase
(`char::is_lowercase` modelled by `Char.isLower`). -/
def has_lowercase (password : String) : Except ValidationError Unit :=
  if password.data.any (fun c => c.isLower) then
    .ok ()
  else
    .error ⟨"The password must include least one uppercase caracter.\n"⟩

/-- Embeds `has_number`: succeeds iff some character is numeric
(`char::is_numeric` modelled by `Char.isDigit`). -/
def has_number (password : String) : Except ValidationError Unit :=
  if password.data.any (fun c => c.isDigit) then
    .ok ()
  else
    .error ⟨"The password has to contain at least one digit.\n"⟩

/-- Embeds `is_secure`: runs the four rules with `?`, returning the first
violation. -/
def is_secure (password : String) : Except ValidationError Unit :=
  match is_long password with
  | .error e => .error e
  | .ok () =>
    match has_uppercase password with
    | .error e => .error e
    | .ok () =>
      match has_lowercase password with
      | .error e => .error e
      | .ok () => has_number password

/-! ## External-crate models: argon2 and the email validator -/

/-- Model of the external argon2 crate's `hash_encoded`: a self-describing
digest embedding the salt and (for the model) the password. -/
def hash_encoded (password salt : String) : String :=
  "$argon2$" ++ salt ++ "$" ++ password

/-- Model of the external argon2 crate's `verify_encoded`: a malformed
digest is an error, otherwise the digest matches exactly the password it
encodes. -/
def verify_encoded (digest password : String) : Except Error Bool :=
  if digest.startsWith "$argon2$" then
    .ok (digest.endsWith ("$" ++ password))
  else
    .error .Argon2ParsingError

/-- Model of the external validator crate's `validate_email`: exactly one
`@`, a nonempty local part, and a nonempty domain containing a dot. -/
def validate_email (e : String) : Bool :=
  let cs := e.data
  let domain := (cs.dropWhile (fun c => c ≠ '@')).drop 1
  cs.count '@' == 1 &&
  !(cs.takeWhile (fun c => c ≠ '@')).isEmpty &&
  !domain.isEmpty &&
  domain.contains '.'

/-! ## Forms — `src/forms/mod.rs` -/

/-- The `Login` form. -/
structure Login where
  email : String
  password : String
deriving Repr, DecidableEq

/-- The `Signup` form. -/
structure Signup where
  email : String
  password : String
deriving Repr, DecidableEq

/-- Embeds `From<Signup> for Login`. -/
def Login.ofSignup (form : Signup) : Login :=
  ⟨form.email, form.password⟩

/-- The codes of the password rules violated by `password`; the derived
validator on `Signup` evaluates `is_long`, `has_number`, `has_lowercase`
and `has_uppercase` independently and collects every failure. -/
def passwordViolations (password : String) : List String :=
  ((((match is_long password with
      | .error e => [e.code]
      | .ok () => []) ++
     (match has_number password with
      | .error e => [e.code]
      | .ok () => [])) ++
    (match has_lowercase password with
     | .error e => [e.code]
     | .ok () => [])) ++
   (match has_uppercase password with
    | .error e => [e.code]
    | .ok () => []))

/-- Embeds `Signup::validate` from the `Validate` derive: the email format check
and the four custom password validators, all evaluated, failures
aggregated into `FormValidationErrors`. -/
def Signup.validate (form : Signup) : Except Error Unit :=
  let emailErrs := if validate_email form.email then [] else ["email"]
  let errs := emailErrs ++ passwordViolations form.password
  if errs.isEmpty then .ok () else .error (.FormValidationErrors errs)

/-! ## Session stores -/

/-- The in-memory session store `CHashMap<ObjectId, AuthKey>` from
`src/session/default/mod.rs`, modelled as an association list with at
most one entry per id (`CHashMap::insert` replaces). -/
structure SessStore where
  entries : List (ObjectId × AuthKey)
deriving Repr, DecidableEq

/-- Embeds `CHashMap::insert`: insert or replace the value stored at `id`. -/
def SessStore.mapInsert (st : SessStore) (id : ObjectId) (key : AuthKey) :
    SessStore :=
  ⟨(id, key) :: st.entries.filter (fun e => !(e.1 == id))⟩

/-- The constant `YEAR_IN_SECS` (from `src/session/redis/mod.rs`), the
default session TTL of one year. -/
def YEAR_IN_SECS : Int := 365 * 60 * 60 * 24

/-- Modelled from the spec: the `From<String>` conversion for `AuthKey`
used by `SessionManager::insert` lives in `src/session/mod.rs`, which is
absent from `src/`; per the spec (§3, §4.3) the default-TTL insert stores
a secret with an absolute expiry instant one year from now. -/
def AuthKey.ofSecret (now : Int) (secret : String) : AuthKey :=
  ⟨now + YEAR_IN_SECS, secret⟩

/-- Embeds `SessionManager::insert` for `CHashMap`: `self.insert(id, key.into())`. -/
def SessStore.smInsert (st : SessStore) (now : Int) (id : ObjectId)
    (key : String) : Except Error SessStore :=
  .ok (st.mapInsert id (AuthKey.ofSecret now key))

/-- Embeds `SessionManager::insert_for` for `CHashMap`: stores
`AuthKey { expires: time.as_secs() as i64, secret: key }` — note the
expiry field receives the raw TTL, not `now + ttl`. -/
def SessStore.insert_for (st : SessStore) (id : ObjectId) (key : String)
    (time : Nat) : Except Error SessStore :=
  .ok (st.mapInsert id ⟨(time : Int), key⟩)

/-- Embeds `SessionManager::remove` for `CHashMap`. -/
def SessStore.smRemove (st : SessStore) (id : ObjectId) :
    Except Error SessStore :=
  .ok ⟨st.entries.filter (fun e => !(e.1 == id))⟩

/-- Embeds `SessionManager::get` for `CHashMap`: the stored secret, if any. -/
def SessStore.smGet (st : SessStore) (id : ObjectId) : Option String :=
  (st.entries.find? (fun e => e.1 == id)).map (fun e => e.2.secret)

/-- Embeds `SessionManager::clear_expired` for `CHashMap`:
`self.retain(|_, auth_key| auth_key.expires > time)` with `time = now()`. -/
def SessStore.clear_expired (st : SessStore) (now : Int) :
    Except Error SessStore :=
  .ok ⟨st.entries.filter (fun e => now < e.2.expires)⟩

/-- The redis session backend from `src/session/redis/mod.rs`: a
connection that may be down, and the native key/value map with its own
TTL handling. -/
structure RedisClient where
  connected : Bool
  kv : List (ObjectId × String)
deriving Repr, DecidableEq

/-- Embeds `SessionManager::get` for the redis `Client`:
`get_connection().ok()?` yields `None` when the server is unreachable,
and a missing key also yields `None`. -/
def RedisClient.smGet (c : RedisClient) (id : ObjectId) : Option String :=
  if c.connected then
    (c.kv.find? (fun e => e.1 == id)).map (fun e => e.2)
  else
    none

/-! ## User repository — `src/db/mongomodel/mod.rs` -/

/-- The MongoDB `users` collection with a unique index on `email`,
plus a reachability flag for the backend. -/
structure MongoDB where
  users : List User
  reachable : Bool
deriving Repr, DecidableEq

/-- Embeds `DBConnection::create_user` for `Database`: inserts a fresh record
(id assigned by the store, history fields `None`); the unique email index
makes `insert_one` fail on a duplicate, surfaced through the
`mongodb::error::Error` wrapper.  The `mongomodel` impl also takes the
verification token as an argument (the `db/mod.rs` trait omits it). -/
def dbCreateUser (db : MongoDB) (email hash token : String)
    (is_admin : Bool) : Except Error MongoDB :=
  if !db.reachable then .error .MongoDBError
  else if db.users.any (fun u => u.email == email) then .error .MongoDBError
  else
    .ok ⟨db.users ++
          [⟨some db.users.length, email, is_admin, false, token, hash,
            none, none, none⟩],
         true⟩

/-- Embeds `find_one_and_replace` keyed by `_id`: replace the first record with
the given user's id. -/
def replaceById : List User → User → List User
  | [], _ => []
  | v :: rest, u =>
    if v.id == u.id then u :: rest else v :: replaceById rest u

/-- Embeds `DBConnection::update_user` for `Database`. -/
def dbUpdateUser (db : MongoDB) (user : User) : Except Error MongoDB :=
  if db.reachable then .ok ⟨replaceById db.users user, true⟩
  else .error .MongoDBError

/-- Embeds `DBConnection::get_user_by_id` for `Database`: `find_one` by `_id`;
`UserNotFoundError` when absent, the wrapped store error when
unreachable. -/
def dbGetUserById (db : MongoDB) (user_id : ObjectId) : Except Error User :=
  if db.reachable then
    match db.users.find? (fun u => u.id == some user_id) with
    | some user_rec => .ok user_rec
    | none => .error .UserNotFoundError
  else .error .MongoDBError

/-- Embeds `DBConnection::get_user_by_email` for `Database`. -/
def dbGetUserByEmail (db : MongoDB) (email : String) : Except Error User :=
  if db.reachable then
    match db.users.find? (fun u => u.email == email) with
    | some user_rec => .ok user_rec
    | none => .error .UserNotFoundError
  else .error .MongoDBError

/-- Embeds `DBConnection::delete_user_by_id` for `Database`. -/
def dbDeleteUserById (db : MongoDB) (user_id : ObjectId) :
    Except Error MongoDB :=
  if db.reachable then
    .ok ⟨db.users.filter (fun u => !(u.id == some user_id)), true⟩
  else .error .MongoDBError

/-! ## `User` methods — `src/user/user.rs` -/

/-- Embeds `User::set_password`: policy-check the new password with
`is_secure` (the `?` converts the `ValidationError` through the `From`
wrapper), then overwrite `self.password` with a fresh argon2 digest.
The salt (`rand_string(10)`) is passed in explicitly. -/
def User.set_password (u : User) (new salt : String) : Except Error User :=
  match is_secure new with
  | .error e => .error (.FormValidationError e)
  | .ok () => .ok { u with password := hash_encoded new salt }

/-- Embeds `User::set_verified`: flips `is_verified` when the token matches the
stored `verification_token`, otherwise `VerificationTokenMismatch`. -/
def User.set_verified (u : User) (token : String) : Except Error User :=
  if u.verification_token == token then
    .ok { u with is_verified := true }
  else
    .error .VerificationTokenMismatch

/-! ## `Users` — `src/user/mod.rs` and `src/user/users.rs`

The `Users` value holds a `DBConnection` and a `SessionManager`; we embed
it against the MongoDB repository and the in-memory store, passing both
explicitly. -/

/-- Embeds `Users::is_auth`, written against the `SessionManager::get` of
whichever store backs the `Users` value, hence parameterised by the
store's `get`. -/
def Users.is_auth (get : ObjectId → Option String) (session : Session) :
    Bool :=
  match get session.id with
  | some auth_key => auth_key == session.auth_key
  | none => false

/-- Embeds `Users::set_auth_key`: generate `rand_string(15)` (passed in as
`key15`), insert it under the default TTL, return it. -/
def Users.set_auth_key (st : SessStore) (now : Int) (user_id : ObjectId)
    (key15 : String) : Except Error (String × SessStore) :=
  match st.smInsert now user_id key15 with
  | .error e => .error e
  | .ok st' => .ok (key15, st')

/-- Embeds `Users::set_auth_key_for`: generate `rand_string(10)` (passed in as
`key10`), insert it with the caller's TTL, return it. -/
def Users.set_auth_key_for (st : SessStore) (user_id : ObjectId)
    (key10 : String) (time : Nat) : Except Error (String × SessStore) :=
  match st.insert_for user_id key10 time with
  | .error e => .error e
  | .ok st' => .ok (key10, st')

/-- Embeds `Users::login`: look the user up by email, mapping any lookup failure
to `EmailDoesNotExist(email)`; verify the password; on success issue a
fresh default-TTL auth key. -/
def Users.login (db : MongoDB) (st : SessStore) (now : Int) (form : Login)
    (key15 : String) : Except Error (String × SessStore) :=
  match dbGetUserByEmail db form.email with
  | .error _ => .error (.EmailDoesNotExist form.email)
  | .ok user =>
    match verify_encoded user.password form.password with
    | .error e => .error e
    | .ok true => Users.set_auth_key st now user.id.get! key15
    | .ok false => .error .UnauthorizedError

/-- Embeds `Users::login_for`: same as `login` except the lookup error is
propagated unmapped (`?` instead of `map_err`) and the key is issued with
the caller's TTL. -/
def Users.login_for (db : MongoDB) (st : SessStore) (form : Login)
    (key10 : String) (time : Nat) : Except Error (String × SessStore) :=
  match dbGetUserByEmail db form.email with
  | .error e => .error e
  | .ok user =>
    match verify_encoded user.password form.password with
    | .error e => .error e
    | .ok true => Users.set_auth_key_for st user.id.get! key10 time
    | .ok false => .error .UnauthorizedError

/-- Embeds `Users::create_user` (from `src/user/users.rs`): hash the password
with a fresh salt (`rand_string(30)`, passed in) and call the
repository's `create_user`.  The verification token argument belongs to
the `mongomodel` signature. -/
def Users.create_user (db : MongoDB) (email password : String)
    (is_admin : Bool) (salt token : String) : Except Error MongoDB :=
  dbCreateUser db email (hash_encoded password salt) token is_admin

/-- Embeds `Users::signup` (from `src/user/mod.rs`): validate the form, then
create the user; the mailer branch is a no-op.  Errors from
`create_user` are returned to the caller. -/
def Users.signup (db : MongoDB) (form : Signup) (salt token : String) :
    Except Error MongoDB :=
  match Signup.validate form with
  | .error e => .error e
  | .ok () =>
    match Users.create_user db form.email form.password false salt token with
    | .ok db' => .ok db'
    | .error e => .error e

/-- Embeds `Users::modify`: `self.conn.update_user(user)`. -/
def Users.modify (db : MongoDB) (user : User) : Except Error MongoDB :=
  dbUpdateUser db user

/-- Embeds `Users::get_by_id`: `self.conn.get_user_by_id(user_id)`. -/
def Users.get_by_id (db : MongoDB) (user_id : ObjectId) :
    Except Error User :=
  dbGetUserById db user_id

/-- Embeds `Users::delete`: remove the session key, then delete the record. -/
def Users.delete (db : MongoDB) (st : SessStore) (id : ObjectId) :
    Except Error (MongoDB × SessStore) :=
  match st.smRemove id with
  | .error e => .error e
  | .ok st' =>
    match dbDeleteUserById db id with
    | .error e => .error e
    | .ok db' => .ok (db', st')

/-! ## `Auth` — `src/user/auth.rs`

The request guard state: the optional client session plus the managed
`Users` value (its repository and in-memory session store). -/

/-- The `Auth` guard's state (cookie jar side effects are out of the
model's scope; the repository and store stand for the `Users` handle). -/
structure AuthState where
  session : Option Session
  db : MongoDB
  sess : SessStore
deriving Repr, DecidableEq

/-- Embeds `Auth::is_auth`: false when no session was extracted, otherwise
`Users::is_auth` against the store. -/
def Auth.is_auth (a : AuthState) : Bool :=
  match a.session with
  | some session => Users.is_auth a.sess.smGet session
  | none => false

/-- Embeds `Auth::get_session`: the session, or `UnauthenticatedError`. -/
def Auth.get_session (a : AuthState) : Except Error Session :=
  match a.session with
  | some session => .ok session
  | none => .error .UnauthenticatedError

/-- Embeds `Auth::get_user`: `None` unless authenticated, then `get_by_id`,
collapsing lookup errors to `None`. -/
def Auth.get_user (a : AuthState) : Option User :=
  if !(Auth.is_auth a) then none
  else
    match a.session with
    | none => none
    | some session =>
      match Users.get_by_id a.db session.id with
      | .ok user => some user
      | .error _ => none

/-- Embeds `Auth::signup`: the statement `self.users.signup(form).await;` drops
the `Result` (no `?`), so the database mutation happens on success but
any error is discarded and `Ok(())` is returned unconditionally. -/
def Auth.signup (a : AuthState) (form : Signup) (salt token : String) :
    Except Error Unit × MongoDB :=
  match Users.signup a.db form salt token with
  | .ok db' => (.ok (), db')
  | .error _ => (.ok (), a.db)

/-- Embeds `Auth::verify_account`: when authenticated, fetch the user, check the
token with `set_verified` (propagated by `?`), then persist with
`self.users.modify(&user).await;` — whose `Result` is dropped.  When not
authenticated the error is `VerificationTokenMismatch`. -/
def Auth.verify_account (a : AuthState) (token : String) :
    Except Error Unit × MongoDB :=
  if Auth.is_auth a then
    match Auth.get_session a with
    | .error e => (.error e, a.db)
    | .ok session =>
      match Users.get_by_id a.db session.id with
      | .error e => (.error e, a.db)
      | .ok user =>
        match User.set_verified user token with
        | .error e => (.error e, a.db)
        | .ok user' =>
          match Users.modify a.db user' with
          | .ok db' => (.ok (), db')
          | .error _ => (.ok (), a.db)
  else
    (.error .VerificationTokenMismatch, a.db)

/-- Embeds `Auth::change_password`: when authenticated, fetch the user, run
`set_password` (propagated by `?`), then persist with
`self.users.modify(&user).await;` — whose `Result` is dropped. -/
def Auth.change_password (a : AuthState) (password salt : String) :
    Except Error Unit × MongoDB :=
  if Auth.is_auth a then
    match Auth.get_session a with
    | .error e => (.error e, a.db)
    | .ok session =>
      match Users.get_by_id a.db session.id with
      | .error e => (.error e, a.db)
      | .ok user =>
        match User.set_password user password salt with
        | .error e => (.error e, a.db)
        | .ok user' =>
          match Users.modify a.db user' with
          | .ok db' => (.ok (), db')
          | .error _ => (.ok (), a.db)
  else
    (.error .UnauthorizedError, a.db)

/-! ## Request guards — `src/user/user.rs` (`FromRequest` impls) -/

/-- A request-guard outcome (the `Forward` case of the upstream `Auth`
guard does not arise once an `AuthState` is given). -/
inductive Outcome (α : Type) where
  | success (val : α)
  | failure (status : Nat) (err : Error)
deriving Repr, DecidableEq

/-- Embeds `FromRequest for User`: succeeds for a resolvable, verified user. -/
def userGuard (a : AuthState) : Outcome User :=
  match Auth.get_user a with
  | some user =>
    if user.is_verified then .success user
    else .failure 401 .UnverifiedError
  | none => .failure 401 .UnauthorizedError

/-- Embeds `FromRequest for UnverifiedUser`: succeeds for any resolvable user —
the code performs no `is_verified` check. -/
def unverifiedUserGuard (a : AuthState) : Outcome User :=
  match Auth.get_user a with
  | some user => .success user
  | none => .failure 401 .UnauthorizedError

/-- Embeds `FromRequest for AdminUser`: succeeds for a resolvable user with
`is_admin && is_verified`. -/
def adminUserGuard (a : AuthState) : Outcome User :=
  match Auth.get_user a with
  | some user =>
    if user.is_admin && user.is_verified then .success user
    else .failure 401 .UnauthorizedError
  | none => .failure 401 .UnauthorizedError

/-! ## Concrete fixtures used by witnesses and evaluations -/

/-- A persisted, unverified user with id 1 and a known argon2 digest. -/
def exUser : User :=
  ⟨some 1, "a@x.com", false, false, "tok123",
   hash_encoded "Abc12345" "s0", none, none, none⟩

/-- The same user with the verification flag set. -/
def exVerifiedUser : User :=
  { exUser with is_verified := true }

/-- A reachable database holding `exUser`. -/
def exDb : MongoDB := ⟨[exUser], true⟩

/-- A reachable database holding `exVerifiedUser`. -/
def exVerifiedDb : MongoDB := ⟨[exVerifiedUser], true⟩

/-- A client session for user 1 holding auth key `"k"`. -/
def exSession : Session := ⟨1, "a@x.com", "k", 0⟩

/-- A session store holding the matching server-side key for user 1. -/
def exSess : SessStore := ⟨[(1, ⟨9999, "k"⟩)]⟩

/-- An authenticated guard state over `exDb`. -/
def exAuth : AuthState := ⟨some exSession, exDb, exSess⟩

/-- An authenticated guard state over `exVerifiedDb`. -/
def exVerifiedAuth : AuthState := ⟨some exSession, exVerifiedDb, exSess⟩

/-- A signup form whose email collides with `exUser` and whose password
satisfies the policy. -/
def exSignup : Signup := ⟨"a@x.com", "Abc12345"⟩

/-! ## Helper lemmas -/

/-- Unfolding of `Users::is_auth` against any store: it answers true
exactly when the store's `get` yields the session's auth key. -/
theorem users_is_auth_iff (get : ObjectId → Option String) (s : Session) :
    Users.is_auth get s = true ↔ get s.id = some s.auth_key := by
  unfold Users.is_auth
  cases h : get s.id with
  | none => simp
  | some k => simp [beq_iff_eq]

/-- Replacing the record found by id and searching again finds the
replacement. -/
theorem find_replaceById (l : List User) (u u' : User) (uid : ObjectId)
    (hid : u'.id = u.id)
    (hfind : l.find? (fun v => v.id == some uid) = some u) :
    (replaceById l u').find? (fun v => v.id == some uid) = some u' := by
  induction l with
  | nil => simp at hfind
  | cons v rest ih =>
    by_cases hv : (v.id == some uid) = true
    · simp only [List.find?_cons, hv] at hfind
      injection hfind with huv
      unfold replaceById
      have hcond : (v.id == u'.id) = true := by
        rw [hid, ← huv]
        exact beq_self_eq_true v.id
      rw [if_pos hcond]
      have hp : (u'.id == some uid) = true := by
        rw [hid, ← huv]; exact hv
      simp only [List.find?_cons, hp]
    · rw [Bool.not_eq_true] at hv
      simp only [List.find?_cons, hv] at hfind
      have hu := List.find?_some hfind
      simp only [beq_iff_eq] at hu
      have hvne : (v.id == u'.id) = false := by
        rw [hid, hu]
        exact hv
      unfold replaceById
      rw [if_neg (by simp [hvne])]
      simp only [List.find?_cons, hv]
      exact ih hfind

/-- A successful `get_by_id` means the backend was reachable and the
record was found. -/
theorem get_by_id_inv (db : MongoDB) (uid : ObjectId) (u : User)
    (h : Users.get_by_id db uid = .ok u) :
    db.reachable = true ∧
    db.users.find? (fun v => v.id == some uid) = some u := by
  unfold Users.get_by_id dbGetUserById at h
  by_cases hr : db.reachable = true
  · rw [if_pos hr] at h
    refine ⟨hr, ?_⟩
    cases hf : db.users.find? (fun v => v.id == some uid) with
    | none => rw [hf] at h; exact absurd h (by simp)
    | some w => rw [hf] at h; injection h with hw; rw [hw]
  · rw [if_neg hr] at h
    exact absurd h (by simp)

/-! ## Claim theorems -/

/-- C1: a duplicate-email signup makes `Users::signup` fail, yet
`Auth::signup` — which drops the `Result` of `self.users.signup(form)` —
still returns `Ok(())` to its caller, contradicting the claim that the
underlying error is surfaced.  Evaluated at a valid form whose email
already exists in the repository. -/
theorem auth_signup_swallows_users_error :
    Signup.validate exSignup = .ok () ∧
    Users.signup exDb exSignup "salt" "vtok" = .error .MongoDBError ∧
    Auth.signup ⟨none, exDb, ⟨[]⟩⟩ exSignup "salt" "vtok" = (.ok (), exDb) := by
  decide

/-- C2: `Users::is_auth` answers true exactly when the backing store's
`get` currently yields the session's auth key — for the in-memory store
and for the redis store — and an unreachable redis store always yields
false. -/
theorem is_auth_iff_store_secret_matches (st : SessStore) (c : RedisClient)
    (s : Session) :
    (Users.is_auth st.smGet s = true ↔ st.smGet s.id = some s.auth_key) ∧
    (Users.is_auth c.smGet s = true ↔ c.smGet s.id = some s.auth_key) ∧
    (c.connected = false → Users.is_auth c.smGet s = false) := by
  refine ⟨users_is_auth_iff _ s, users_is_auth_iff _ s, ?_⟩
  intro hc
  have hnone : c.smGet s.id = none := by simp [RedisClient.smGet, hc]
  unfold Users.is_auth
  rw [hnone]

/-- Witness for C2 at a concrete store, session and a disconnected redis
client. -/
theorem is_auth_iff_store_secret_matches_witness :
    (Users.is_auth (SessStore.smGet exSess) exSession = true ↔
      SessStore.smGet exSess exSession.id = some exSession.auth_key) ∧
    Users.is_auth (RedisClient.smGet ⟨false, [(1, "k")]⟩) exSession = false :=
  ⟨(is_auth_iff_store_secret_matches exSess ⟨false, [(1, "k")]⟩ exSession).1,
   (is_auth_iff_store_secret_matches exSess ⟨false, [(1, "k")]⟩ exSession).2.2
     rfl⟩

/-- C3: issuing an auth key twice for the same user (two logins) leaves
exactly one entry for that user in the store, holding the second key, and
a session that still carries the first key fails `is_auth`. -/
theorem second_login_overwrites_first_key (st : SessStore) (uid : ObjectId)
    (n1 n2 : Int) (k1 k2 email : String) (ts : Int) (hne : k1 ≠ k2) :
    ∃ st1 st2,
      Users.set_auth_key st n1 uid k1 = .ok (k1, st1) ∧
      Users.set_auth_key st1 n2 uid k2 = .ok (k2, st2) ∧
      (st2.entries.filter (fun e => e.1 == uid)).length = 1 ∧
      st2.smGet uid = some k2 ∧
      Users.is_auth st2.smGet ⟨uid, email, k1, ts⟩ = false := by
  refine ⟨st.mapInsert uid (AuthKey.ofSecret n1 k1),
    (st.mapInsert uid (AuthKey.ofSecret n1 k1)).mapInsert uid
      (AuthKey.ofSecret n2 k2),
    rfl, rfl, ?_, ?_, ?_⟩
  · simp [SessStore.mapInsert, List.filter_filter]
  · simp [SessStore.mapInsert, SessStore.smGet, AuthKey.ofSecret]
  · simp [SessStore.mapInsert, SessStore.smGet, Users.is_auth,
      AuthKey.ofSecret]
    exact Ne.symm hne

/-- Witness for C3: two concrete logins for user 1 with distinct keys. -/
theorem second_login_overwrites_first_key_witness :
    ∃ st1 st2,
      Users.set_auth_key ⟨[]⟩ 0 1 "K1" = .ok ("K1", st1) ∧
      Users.set_auth_key st1 0 1 "K2" = .ok ("K2", st2) ∧
      (st2.entries.filter (fun e => e.1 == 1)).length = 1 ∧
      st2.smGet 1 = some "K2" ∧
      Users.is_auth st2.smGet ⟨1, "a@x.com", "K1", 0⟩ = false :=
  second_login_overwrites_first_key ⟨[]⟩ 1 0 0 "K1" "K2" "a@x.com" 0
    (by decide)

/-- C4: `insert_for` stores the raw TTL (3600) in the expiry field — not
the absolute instant `t + ttl` — so at `now = 1700000000`, although `now`
has not passed `t + ttl`, `clear_expired` already removes the entry. -/
theorem insert_for_stores_relative_expiry :
    SessStore.insert_for ⟨[]⟩ 1 "secret" 3600 =
      .ok ⟨[(1, ⟨3600, "secret"⟩)]⟩ ∧
    (3600 : Int) ≠ 1700000000 + 3600 ∧
    (1700000000 : Int) < 1700000000 + 3600 ∧
    SessStore.clear_expired ⟨[(1, ⟨3600, "secret"⟩)]⟩ 1700000000 =
      .ok ⟨[]⟩ := by
  decide

/-- C5: for an authenticated session whose user record resolves,
`verify_account` succeeds exactly when the token equals the stored
verification token; on success the persisted record has
`is_verified = true`, and on mismatch the error is
`VerificationTokenMismatch` and the database is untouched. -/
theorem verify_account_token_match (a : AuthState) (s : Session) (u : User)
    (token : String) (hs : a.session = some s)
    (hauth : Auth.is_auth a = true)
    (hu : Users.get_by_id a.db s.id = .ok u) :
    ((Auth.verify_account a token).1 = .ok () ↔
      token = u.verification_token) ∧
    (token = u.verification_token →
      Users.get_by_id (Auth.verify_account a token).2 s.id =
        .ok { u with is_verified := true }) ∧
    (token ≠ u.verification_token →
      Auth.verify_account a token =
        (.error .VerificationTokenMismatch, a.db)) := by
  obtain ⟨hreach, hfind⟩ := get_by_id_inv a.db s.id u hu
  have hva : Auth.verify_account a token =
      if (u.verification_token == token) = true then
        (.ok (),
         ⟨replaceById a.db.users { u with is_verified := true }, true⟩)
      else
        (.error .VerificationTokenMismatch, a.db) := by
    unfold Auth.verify_account Auth.get_session User.set_verified
      Users.modify dbUpdateUser
    by_cases ht : (u.verification_token == token) = true
    · simp [hauth, hs, hu, hreach, ht]
    · simp [hauth, hs, hu, ht]
  by_cases ht : (u.verification_token == token) = true
  · rw [beq_iff_eq] at ht
    refine ⟨?_, ?_, ?_⟩
    · rw [hva, if_pos (by simp [ht])]
      simp [ht]
    · intro _
      rw [hva, if_pos (by simp [ht])]
      unfold Users.get_by_id dbGetUserById
      rw [find_replaceById a.db.users u { u with is_verified := true }
        s.id rfl hfind]
      simp
    · intro hne; exact absurd ht.symm hne
  · have htne : token ≠ u.verification_token := by
      intro hc
      exact ht (by rw [hc]; exact beq_self_eq_true _)
    refine ⟨?_, ?_, ?_⟩
    · rw [hva, if_neg ht]
      simp [htne]
    · intro hc; exact absurd hc htne
    · intro _; rw [hva, if_neg ht]

/-- Witness for C5 at the concrete authenticated state `exAuth` and the
matching token. -/
theorem verify_account_token_match_witness :
    ((Auth.verify_account exAuth "tok123").1 = .ok () ↔
      "tok123" = exUser.verification_token) ∧
    ("tok123" = exUser.verification_token →
      Users.get_by_id (Auth.verify_account exAuth "tok123").2 exSession.id =
        .ok { exUser with is_verified := true }) ∧
    ("tok123" ≠ exUser.verification_token →
      Auth.verify_account exAuth "tok123" =
        (.error .VerificationTokenMismatch, exAuth.db)) :=
  verify_account_token_match exAuth exSession exUser "tok123" rfl
    (by decide) (by decide)

/-- C6: the password policy accepts a password exactly when it is at
least 8 bytes long and contains an uppercase letter, a lowercase letter
and a digit. -/
theorem is_secure_iff_long_upper_lower_digit (p : String) :
    is_secure p = .ok () ↔
      (8 ≤ p.utf8ByteSize ∧ p.data.any (fun c => c.isUpper) = true ∧
       p.data.any (fun c => c.isLower) = true ∧
       p.data.any (fun c => c.isDigit) = true) := by
  unfold is_secure is_long has_uppercase has_lowercase has_number
  split_ifs with h1 h2 h3 h4 <;> simp_all

/-- C7 counterexample: on a reachable store with no matching user, the
custom-TTL `login_for` returns the repository's `UserNotFoundError`, not
`EmailDoesNotExist`. -/
theorem login_for_error_counterexample :
    Users.login_for ⟨[], true⟩ ⟨[]⟩ ⟨"a@x.com", "Abc12345"⟩ "k" 3600 =
      .error .UserNotFoundError ∧
    Users.login_for ⟨[], true⟩ ⟨[]⟩ ⟨"a@x.com", "Abc12345"⟩ "k" 3600 ≠
      .error (.EmailDoesNotExist "a@x.com") := by
  decide

/-- C7 (amended): when the email lookup fails, the default-TTL `login`
fails with `EmailDoesNotExist(email)`, while the custom-TTL `login_for`
propagates the repository's lookup error unmapped. -/
theorem login_maps_lookup_error_login_for_does_not (db : MongoDB)
    (st : SessStore) (now : Int) (form : Login) (key15 key10 : String)
    (time : Nat) (e : Error)
    (h : dbGetUserByEmail db form.email = .error e) :
    Users.login db st now form key15 =
      .error (.EmailDoesNotExist form.email) ∧
    Users.login_for db st form key10 time = .error e := by
  unfold Users.login Users.login_for
  rw [h]
  exact ⟨rfl, rfl⟩

/-- Witness for the amended C7 at an empty reachable store. -/
theorem login_maps_lookup_error_witness :
    Users.login ⟨[], true⟩ ⟨[]⟩ 0 ⟨"a@x.com", "Abc12345"⟩ "K" =
      .error (.EmailDoesNotExist "a@x.com") ∧
    Users.login_for ⟨[], true⟩ ⟨[]⟩ ⟨"a@x.com", "Abc12345"⟩ "K" 3600 =
      .error .UserNotFoundError :=
  login_maps_lookup_error_login_for_does_not ⟨[], true⟩ ⟨[]⟩ 0
    ⟨"a@x.com", "Abc12345"⟩ "K" "K" 3600 .UserNotFoundError (by decide)

/-- C8: a resolvable user that IS verified is nevertheless accepted by
the `UnverifiedUser` guard (which performs no verification check), at the
same time as the verified-`User` guard — the classes overlap,
contradicting the claim and the guard's own documentation. -/
theorem unverified_guard_accepts_verified_user :
    exVerifiedUser.is_verified = true ∧
    Auth.get_user exVerifiedAuth = some exVerifiedUser ∧
    unverifiedUserGuard exVerifiedAuth = .success exVerifiedUser ∧
    userGuard exVerifiedAuth = .success exVerifiedUser := by
  decide

/-- C9 counterexample: changing the password of a user whose history
fields are empty leaves them empty — the prior hash
(`exUser.password`) is not retained anywhere. -/
theorem set_password_no_history_counterexample :
    (User.set_password exUser "Xyz45678" "s1").map
      (fun u => u.prev_password) = .ok none ∧
    some exUser.password ≠ (none : Option String) := by
  decide

/-- C9 (amended): `set_password` only replaces the `password` field; the
three password-history fields are left exactly as they were (they are
initialised to `None` at creation and never populated). -/
theorem set_password_leaves_history_unchanged (u : User) (new salt : String)
    (h : is_secure new = .ok ()) :
    User.set_password u new salt =
      .ok { u with password := hash_encoded new salt } ∧
    ({ u with password := hash_encoded new salt } : User).prev_password =
      u.prev_password ∧
    ({ u with password := hash_encoded new salt } : User).prev_password_1 =
      u.prev_password_1 ∧
    ({ u with password := hash_encoded new salt } : User).prev_password_2 =
      u.prev_password_2 := by
  unfold User.set_password
  rw [h]
  exact ⟨rfl, rfl, rfl, rfl⟩

/-- Witness for the amended C9 at `exUser` and a policy-passing
password. -/
theorem set_password_leaves_history_unchanged_witness :
    User.set_password exUser "Xyz45678" "s1" =
      .ok { exUser with password := hash_encoded "Xyz45678" "s1" } ∧
    ({ exUser with password := hash_encoded "Xyz45678" "s1" } :
        User).prev_password = exUser.prev_password ∧
    ({ exUser with password := hash_encoded "Xyz45678" "s1" } :
        User).prev_password_1 = exUser.prev_password_1 ∧
    ({ exUser with password := hash_encoded "Xyz45678" "s1" } :
        User).prev_password_2 = exUser.prev_password_2 :=
  set_password_leaves_history_unchanged exUser "Xyz45678" "s1" (by decide)

/-- C10: with no session, or a session that fails `is_auth`,
`verify_account` returns `VerificationTokenMismatch` — the same error as
a wrong token — and the database is untouched. -/
theorem verify_account_unauthenticated_mismatch (a : AuthState)
    (token : String) (h : a.session = none ∨ Auth.is_auth a = false) :
    Auth.verify_account a token =
      (.error .VerificationTokenMismatch, a.db) := by
  have hfalse : Auth.is_auth a = false := by
    rcases h with h | h
    · unfold Auth.is_auth; rw [h]
    · exact h
  simp [Auth.verify_account, hfalse]

/-- Witness for C10 at a state with no session at all. -/
theorem verify_account_unauthenticated_mismatch_witness :
    Auth.verify_account ⟨none, exDb, ⟨[]⟩⟩ "tok123" =
      (.error .VerificationTokenMismatch, exDb) :=
  verify_account_unauthenticated_mismatch ⟨none, exDb, ⟨[]⟩⟩ "tok123"
    (Or.inl rfl)

end RocketAuthNosql
